import Mathlib

/-!
Verification of the call-lifecycle and session-routing layer of the
openclaw-voice-gpt-realtime plugin.

The `VoiceServer` class (`server.ts`) is embedded directly below: its webhook
handlers (`handleVoiceAnswer`, `handleVoiceStatus`), the inbound admission
policy (`shouldAcceptInbound`), the media-connection attach handler
(`handleWebSocket`) and the socket-close cleanup are modelled as pure state
transitions over the server state (`bridges` and `pendingCallContexts` maps),
with calls into the `CallManager` recorded as an explicit list of emitted
store operations.
-/

/-- Finite partial map keyed by call identifier, modelling a JS `Map`. -/
abbrev StrMap (α : Type) := String → Option α

def StrMap.empty {α : Type} : StrMap α := fun _ => none

def StrMap.set {α : Type} (m : StrMap α) (k : String) (v : α) : StrMap α :=
  fun q => if q = k then some v else m q

def StrMap.erase {α : Type} (m : StrMap α) (k : String) : StrMap α :=
  fun q => if q = k then none else m q

/-- Call lifecycle status, as used by `CallManager` and the status webhook. -/
inductive CallStatus
  | created
  | ringing
  | inProgress
  | completed
  | failed
  | noAnswer
  | busy
deriving DecidableEq, Repr

/-- A status is terminal when it is one of completed, failed, no-answer, busy
(the list checked in `handleVoiceStatus`). -/
def CallStatus.isTerminal : CallStatus → Bool
  | .completed => true
  | .failed => true
  | .noAnswer => true
  | .busy => true
  | _ => false

/-- The per-call context stored in `pendingCallContexts` and handed to the
bridge (`CallContext` in `prompts.ts`): the task/persona descriptor. -/
structure CallContext where
  task : String
  direction : String
  greeting : Option String
  inboundSystemPrompt : Option String
deriving DecidableEq, Repr

/-- Inbound section of the plugin configuration, as consumed by
`shouldAcceptInbound` and `handleVoiceAnswer`. -/
structure InboundConfig where
  enabled : Bool
  policy : String
  allowFrom : List String
  greeting : String
  systemPrompt : String
deriving DecidableEq, Repr

/-- Whitespace as matched by the JavaScript regular expression `\s`
(used in the `from.replace` normalization of `shouldAcceptInbound`). -/
def isJsWhitespace (c : Char) : Bool :=
  c = ' ' || c = Char.ofNat 0x09 || c = Char.ofNat 0x0a || c = Char.ofNat 0x0b ||
  c = Char.ofNat 0x0c || c = Char.ofNat 0x0d || c = Char.ofNat 0xa0 ||
  c = Char.ofNat 0x1680 || (0x2000 ≤ c.toNat && c.toNat ≤ 0x200a) ||
  c = Char.ofNat 0x2028 || c = Char.ofNat 0x2029 || c = Char.ofNat 0x202f ||
  c = Char.ofNat 0x205f || c = Char.ofNat 0x3000 || c = Char.ofNat 0xfeff

/-- `s.replace(/\s/g, "")`: remove every whitespace character. -/
def stripWhitespace (s : String) : String :=
  String.mk (s.toList.filter (fun c => !isJsWhitespace c))

/-- `VoiceServer.shouldAcceptInbound` (server.ts): inbound admission policy. -/
def shouldAcceptInbound (cfg : InboundConfig) (fromNum : String) : Bool :=
  if !cfg.enabled || cfg.policy = "disabled" then false
  else if cfg.policy = "open" then true
  else if cfg.policy = "allowlist" then
    let normalized := stripWhitespace fromNum
    cfg.allowFrom.any (fun allowed => normalized == stripWhitespace allowed)
  else false

/-- Server-local mutable state of `VoiceServer`: the bridge registry (each
bridge recorded by the context it was constructed with) and the pending call
context registry. -/
structure VoiceState where
  bridges : StrMap CallContext
  pendingCallContexts : StrMap CallContext

def VoiceState.empty : VoiceState :=
  { bridges := StrMap.empty, pendingCallContexts := StrMap.empty }

/-- A call into the `CallManager` API, recorded as an emitted effect. -/
inductive StoreOp
  | createCall (callId toNum fromNum task direction : String)
  | setCallSid (callId sid : String)
  | updateStatus (callId : String) (status : CallStatus)
  | setAmdResult (callId answeredBy : String)
deriving DecidableEq, Repr

/-- The TwiML response of the call-control webhook: either a hangup
instruction or a `<Connect><Stream>` carrying the call identifier. -/
inductive TwimlResponse
  | hangup
  | connectStream (callId : String)
deriving DecidableEq, Repr

/-- The pending context stored by `handleVoiceAnswer` for an accepted
inbound call. -/
def inboundPendingContext (cfg : InboundConfig) : CallContext :=
  { task := "Inbound call — answer and help the caller with whatever they need."
    direction := "inbound"
    greeting := some cfg.greeting
    inboundSystemPrompt := some cfg.systemPrompt }

/-- `VoiceServer.handleVoiceAnswer` (server.ts). Parameters `direction`,
`callSid`, `queryCallId` come from the webhook request; `freshId` stands for
the generated `inbound_...` identifier. Returns the TwiML response, the new
server state, and the `CallManager` calls made, in order. -/
def handleVoiceAnswer (cfg : InboundConfig) (st : VoiceState)
    (direction callSid queryCallId : Option String) (fromNum toNum : String)
    (freshId : String) : TwimlResponse × VoiceState × List StoreOp :=
  if queryCallId.isNone && direction == some "inbound" then
    if !shouldAcceptInbound cfg fromNum then
      (TwimlResponse.hangup, st, [])
    else
      let callId := freshId
      let sidOps := match callSid with
        | some sid => [StoreOp.setCallSid callId sid]
        | none => []
      let st' := { st with
        pendingCallContexts :=
          st.pendingCallContexts.set callId (inboundPendingContext cfg) }
      (TwimlResponse.connectStream callId, st',
        StoreOp.createCall callId toNum fromNum "Inbound call" "inbound"
          :: sidOps ++ [StoreOp.updateStatus callId CallStatus.inProgress])
  else
    let callId := queryCallId.getD "unknown"
    let ops := match callSid with
      | some sid =>
          [StoreOp.setCallSid callId sid,
           StoreOp.updateStatus callId CallStatus.inProgress]
      | none => []
    (TwimlResponse.connectStream callId, st, ops)

/-- The `statusMap` lookup table of `handleVoiceStatus`: provider status
string to `CallManager` status. -/
def statusMap (s : String) : Option CallStatus :=
  if s = "ringing" then some CallStatus.ringing
  else if s = "in-progress" then some CallStatus.inProgress
  else if s = "completed" then some CallStatus.completed
  else if s = "failed" then some CallStatus.failed
  else if s = "no-answer" then some CallStatus.noAnswer
  else if s = "busy" then some CallStatus.busy
  else if s = "canceled" then some CallStatus.failed
  else none

/-- Result of one `handleVoiceStatus` request: new server state, emitted
`CallManager` calls, the bridges on which `close()` was invoked, and the
HTTP status code written. -/
structure StatusResult where
  state : VoiceState
  ops : List StoreOp
  closedBridges : List String
  httpStatus : Nat

/-- `VoiceServer.handleVoiceStatus` (server.ts). -/
def handleVoiceStatus (st : VoiceState)
    (callId callSid callStatus : Option String) : StatusResult :=
  match callId, callStatus with
  | some cid, some cs =>
    match statusMap cs with
    | some mapped =>
      let sidOps := match callSid with
        | some sid => [StoreOp.setCallSid cid sid]
        | none => []
      let ops := sidOps ++ [StoreOp.updateStatus cid mapped]
      if mapped.isTerminal then
        match st.bridges cid with
        | some _ =>
          { state := { bridges := st.bridges.erase cid
                       pendingCallContexts := st.pendingCallContexts.erase cid }
            ops := ops, closedBridges := [cid], httpStatus := 200 }
        | none =>
          { state := { st with
              pendingCallContexts := st.pendingCallContexts.erase cid }
            ops := ops, closedBridges := [], httpStatus := 200 }
      else
        { state := st, ops := ops, closedBridges := [], httpStatus := 200 }
    | none => { state := st, ops := [], closedBridges := [], httpStatus := 200 }
  | _, _ => { state := st, ops := [], closedBridges := [], httpStatus := 200 }

/-- The fallback context used by `handleWebSocket` when no pending context is
found for the connection. -/
def defaultCallContext : CallContext :=
  { task := "General phone call — ask what they need or answer their questions."
    direction := "outbound"
    greeting := none
    inboundSystemPrompt := none }

/-- `VoiceServer.handleWebSocket` (server.ts): attach of the media
connection. Looks up the pending context (falling back to the default),
constructs the bridge and registers it. Note: the pending entry is read, not
removed. -/
def handleWebSocket (st : VoiceState) (callIdParam : Option String) : VoiceState :=
  let callId := callIdParam.getD "unknown"
  let ctx := (st.pendingCallContexts callId).getD defaultCallContext
  { st with bridges := st.bridges.set callId ctx }

/-- The `ws.on("close", ...)` handler installed by `handleWebSocket`. -/
def wsClose (st : VoiceState) (callId : String) : VoiceState :=
  { bridges := st.bridges.erase callId
    pendingCallContexts := st.pendingCallContexts.erase callId }

/-- `VoiceServer.setCallContext` (server.ts). -/
def setCallContext (st : VoiceState) (callId : String) (ctx : CallContext) :
    VoiceState :=
  { st with pendingCallContexts := st.pendingCallContexts.set callId ctx }

/-!
The `CallManager` (call-manager.ts) and the `RealtimeBridge`
(realtime-bridge.ts) are referenced by `server.ts` and `index.ts` but their
sources are not available here; the definitions below model them from the
design document.
-/

/-- Modelled from the spec: the per-call record kept by the missing
`call-manager.ts` (CallStateStore). Besides the status it carries the
per-record atomic already-finalized flag, and a counter of how many times the
registered completion handler has fired for this record, which makes the
exactly-once property observable. -/
structure CallRecord where
  status : CallStatus
  finalized : Bool
  completionsFired : Nat
deriving DecidableEq, Repr

/-- Modelled from the spec: the `CallManager` registry state — a map from
call identifier to its record. -/
structure CallManagerState where
  records : StrMap CallRecord

/-- Modelled from the spec: `finalize(callId)` of the missing
`call-manager.ts` — idempotent, first caller wins, guarded by the per-record
`finalized` flag; invokes the registered completion handler (counted here)
only when the flag was not yet set. -/
def finalize (st : CallManagerState) (cid : String) : CallManagerState :=
  match st.records cid with
  | none => st
  | some r =>
    if r.finalized then st
    else
      { records := st.records.set cid
          { r with finalized := true, completionsFired := r.completionsFired + 1 } }

/-- Number of completion-handler invocations observed for a call. -/
def completionsFiredFor (st : CallManagerState) (cid : String) : Nat :=
  match st.records cid with
  | some r => r.completionsFired
  | none => 0

/-- `n` successive termination triggers, each invoking `finalize` for the
same call (status webhook, bridge close, end-call tool all funnel here). -/
def finalizeN (st : CallManagerState) (cid : String) : Nat → CallManagerState
  | 0 => st
  | n + 1 => finalize (finalizeN st cid n) cid

/-- Modelled from the spec: `updateStatus(callId, status)` of the missing
`call-manager.ts` — a record already in a terminal status is never regressed;
late or duplicate deliveries on an already-terminal call are silently
ignored, otherwise the status is written. -/
def updateStatus (st : CallManagerState) (cid : String) (s : CallStatus) :
    CallManagerState :=
  match st.records cid with
  | none => st
  | some r =>
    if r.status.isTerminal then st
    else { records := st.records.set cid { r with status := s } }

/-- An observable instruction emitted by the bridge to one of its two peers. -/
inductive BridgeEmit
  | clearTelephony
  | truncateModel
  | inputAudioAppend (payload : String)
deriving DecidableEq, Repr

/-- Modelled from the spec: the barge-in-relevant part of the
`BridgeSession` owned by the missing `realtime-bridge.ts` — the
"unflushed output" flag and whether the bridge is closed. -/
structure BridgeState where
  unflushedOutput : Bool
  closed : Bool
deriving DecidableEq, Repr

/-- Modelled from the spec: the caller-speech-started handler of the missing
`realtime-bridge.ts`. When an output segment is still logically unplayed
(`unflushedOutput`), it emits exactly one discard instruction to the
telephony side and one matching truncate directive to the model session and
clears the flag; otherwise it emits nothing. -/
def onSpeechStarted (b : BridgeState) : BridgeState × List BridgeEmit :=
  if b.unflushedOutput then
    ({ unflushedOutput := false, closed := b.closed },
      [BridgeEmit.clearTelephony, BridgeEmit.truncateModel])
  else (b, [])

/-- Modelled from the spec: the caller-audio relay of the missing
`realtime-bridge.ts` — every inbound telephony media frame is forwarded to
the model session as an input-audio-append event while the bridge is open. -/
def relayCallerFrame (b : BridgeState) (payload : String) : List BridgeEmit :=
  if b.closed then [] else [BridgeEmit.inputAudioAppend payload]

/-!  Theorems. -/

/-- Claim C4: under the allowlist inbound policy (inbound enabled, policy
set to allowlist), a caller number is accepted iff the number with all
whitespace removed is literally equal to some allowlist entry with all
whitespace removed. -/
theorem allowlist_accept_iff_normalized_match (cfg : InboundConfig) (fr : String)
    (hen : cfg.enabled = true) (hpol : cfg.policy = "allowlist") :
    shouldAcceptInbound cfg fr = true ↔
      ∃ a ∈ cfg.allowFrom, stripWhitespace fr = stripWhitespace a := by
  simp [shouldAcceptInbound, hen, hpol, List.any_eq_true]

/-- Claim C4 witness: the caller number with internal spaces is accepted
under the allowlist holding the same digits without spaces. -/
theorem allowlist_accept_iff_normalized_match_witness :
    shouldAcceptInbound
      { enabled := true, policy := "allowlist", allowFrom := ["+14155551234"],
        greeting := "", systemPrompt := "" } "+1 415 555 1234" = true :=
  (allowlist_accept_iff_normalized_match _ "+1 415 555 1234" rfl rfl).mpr
    ⟨"+14155551234", by decide, by decide⟩

/-- Claim C5, counterexample: the claim says policy `open` accepts every
caller, but with the inbound `enabled` flag false the code rejects even
under policy `open` — the admission decision also depends on `enabled`,
which the claim omits. -/
theorem open_policy_with_inbound_disabled_rejects :
    shouldAcceptInbound
      { enabled := false, policy := "open", allowFrom := [],
        greeting := "", systemPrompt := "" } "+14155551234" = false := by
  decide

/-- Claim C5 (amended): provided the inbound `enabled` flag is set, the
admission decision follows the claimed order — `disabled` rejects, `open`
accepts, `allowlist` accepts iff a normalized allowlist entry matches, and
any other (or absent) policy value rejects; a cleared `enabled` flag rejects
regardless of policy. -/
theorem shouldAcceptInbound_characterization (cfg : InboundConfig) (fr : String) :
    shouldAcceptInbound cfg fr = true ↔
      cfg.enabled = true ∧ cfg.policy ≠ "disabled" ∧
        (cfg.policy = "open" ∨ (cfg.policy = "allowlist" ∧
          ∃ a ∈ cfg.allowFrom, stripWhitespace fr = stripWhitespace a)) := by
  rcases cfg with ⟨en, pol, allow, g, sp⟩
  cases en
  · simp [shouldAcceptInbound]
  · simp only [shouldAcceptInbound, Bool.not_true, Bool.false_or]
    split_ifs with h1 h2 h3 <;> simp_all [List.any_eq_true]

theorem StrMap.erase_self {α : Type} (m : StrMap α) (k : String) :
    m.erase k k = none := by
  simp [StrMap.erase]

theorem StrMap.erase_erase {α : Type} (m : StrMap α) (k : String) :
    (m.erase k).erase k = m.erase k := by
  funext q
  by_cases h : q = k <;> simp [StrMap.erase, h]

/-- Claim C6: an inbound call-control webhook whose caller is denied by the
admission policy gets a hangup response, makes no `CallManager` call (so no
CallRecord is created), stores no pending context and constructs no bridge:
the handler returns the state exactly as it was. -/
theorem handleVoiceAnswer_policy_reject_is_pure (cfg : InboundConfig)
    (st : VoiceState) (callSid : Option String) (fromNum toNum freshId : String)
    (hrej : shouldAcceptInbound cfg fromNum = false) :
    handleVoiceAnswer cfg st (some "inbound") callSid none fromNum toNum freshId
      = (TwimlResponse.hangup, st, []) := by
  simp [handleVoiceAnswer, hrej]

/-- Claim C6 witness: a denied inbound webhook on the empty server state. -/
theorem handleVoiceAnswer_policy_reject_is_pure_witness :
    handleVoiceAnswer
      { enabled := false, policy := "disabled", allowFrom := [],
        greeting := "", systemPrompt := "" }
      VoiceState.empty (some "inbound") none none "+15550001111" "+15552223333"
      "fresh1"
      = (TwimlResponse.hangup, VoiceState.empty, []) :=
  handleVoiceAnswer_policy_reject_is_pure _ VoiceState.empty none
    "+15550001111" "+15552223333" "fresh1" (by decide)

/-- Claim C7: a status webhook carrying a terminal status for a call with a
registered bridge forwards the mapped status into the call state store,
closes and removes the bridge together with the pending context, answers
HTTP 200, and a later socket-close event for the same call leaves the state
unchanged (a no-op). -/
theorem handleVoiceStatus_terminal_finalizes_bridge (st : VoiceState)
    (cid : String) (callSid : Option String) (cs : String)
    (mapped : CallStatus) (ctx : CallContext)
    (hmap : statusMap cs = some mapped) (hterm : mapped.isTerminal = true)
    (hbr : st.bridges cid = some ctx) :
    StoreOp.updateStatus cid mapped
        ∈ (handleVoiceStatus st (some cid) callSid (some cs)).ops ∧
    (handleVoiceStatus st (some cid) callSid (some cs)).closedBridges = [cid] ∧
    (handleVoiceStatus st (some cid) callSid (some cs)).state.bridges cid
        = none ∧
    (handleVoiceStatus st (some cid) callSid (some cs)).state.pendingCallContexts
        cid = none ∧
    (handleVoiceStatus st (some cid) callSid (some cs)).httpStatus = 200 ∧
    wsClose (handleVoiceStatus st (some cid) callSid (some cs)).state cid
      = (handleVoiceStatus st (some cid) callSid (some cs)).state := by
  cases callSid <;>
    simp [handleVoiceStatus, hmap, hterm, hbr, wsClose,
      StrMap.erase_self, StrMap.erase_erase]

/-- Claim C7 witness: a `failed` status webhook for a call whose bridge is
registered, on a concrete one-bridge state. -/
theorem handleVoiceStatus_terminal_finalizes_bridge_witness :
    StoreOp.updateStatus "c7" CallStatus.failed
        ∈ (handleVoiceStatus
            { bridges := StrMap.set StrMap.empty "c7" defaultCallContext
              pendingCallContexts := StrMap.set StrMap.empty "c7" defaultCallContext }
            (some "c7") none (some "failed")).ops ∧
    (handleVoiceStatus
        { bridges := StrMap.set StrMap.empty "c7" defaultCallContext
          pendingCallContexts := StrMap.set StrMap.empty "c7" defaultCallContext }
        (some "c7") none (some "failed")).closedBridges = ["c7"] :=
  let st : VoiceState :=
    { bridges := StrMap.set StrMap.empty "c7" defaultCallContext
      pendingCallContexts := StrMap.set StrMap.empty "c7" defaultCallContext }
  let h := handleVoiceStatus_terminal_finalizes_bridge st "c7" none "failed"
    CallStatus.failed defaultCallContext (by decide) (by decide) (by decide)
  ⟨h.1, h.2.1⟩

/-- Claim C8: a media-connection attach whose call identifier has no pending
context still constructs and registers a bridge, built with the default
generic context — the connection is not failed. -/
theorem handleWebSocket_missing_context_fallback (st : VoiceState)
    (cid : String) (habs : st.pendingCallContexts cid = none) :
    (handleWebSocket st (some cid)).bridges cid = some defaultCallContext := by
  simp [handleWebSocket, habs, StrMap.set]

/-- Claim C8 witness: attach on the empty state, where no pending context
exists for the call identifier. -/
theorem handleWebSocket_missing_context_fallback_witness :
    (handleWebSocket VoiceState.empty (some "c8")).bridges "c8"
      = some defaultCallContext :=
  handleWebSocket_missing_context_fallback VoiceState.empty "c8" rfl

/-- Claim C9, counterexample: the claim says the pending-context entry is
removed as part of the attach itself, so a second lookup finds no entry; in
the code `handleWebSocket` only reads the entry, and the lookup after attach
still finds it. -/
theorem pending_context_survives_attach :
    (handleWebSocket
        (setCallContext VoiceState.empty "c9"
          { task := "Book a table", direction := "outbound",
            greeting := none, inboundSystemPrompt := none })
        (some "c9")).pendingCallContexts "c9"
      = some { task := "Book a table", direction := "outbound",
               greeting := none, inboundSystemPrompt := none } := by
  decide

/-- Claim C9 (amended): a media-connection attach whose call identifier has
a pending context reads it (the bridge is constructed with exactly that
context) but does not remove it — the entry survives the attach and is
removed only when the media socket closes (or when a terminal status webhook
arrives); the code has no attach-timeout removal. -/
theorem pending_context_removed_on_close_not_attach (st : VoiceState)
    (cid : String) (ctx : CallContext)
    (hp : st.pendingCallContexts cid = some ctx) :
    (handleWebSocket st (some cid)).pendingCallContexts cid = some ctx ∧
    (handleWebSocket st (some cid)).bridges cid = some ctx ∧
    (wsClose (handleWebSocket st (some cid)) cid).pendingCallContexts cid
      = none := by
  simp [handleWebSocket, wsClose, hp, StrMap.set, StrMap.erase]

/-- Claim C9 (amended) witness: a concrete state holding one pending
context. -/
theorem pending_context_removed_on_close_not_attach_witness :
    (handleWebSocket (setCallContext VoiceState.empty "c9w" defaultCallContext)
        (some "c9w")).pendingCallContexts "c9w" = some defaultCallContext ∧
    (handleWebSocket (setCallContext VoiceState.empty "c9w" defaultCallContext)
        (some "c9w")).bridges "c9w" = some defaultCallContext ∧
    (wsClose
        (handleWebSocket (setCallContext VoiceState.empty "c9w" defaultCallContext)
          (some "c9w"))
        "c9w").pendingCallContexts "c9w" = none :=
  pending_context_removed_on_close_not_attach
    (setCallContext VoiceState.empty "c9w" defaultCallContext) "c9w"
    defaultCallContext (by decide)

/-- Claim C10: the status webhook maps the provider string `canceled` to the
terminal status `failed`; a request missing the call identifier or the
status parameter, or carrying a status string outside the mapped set,
performs no store update and no bridge change and still answers HTTP 200. -/
theorem handleVoiceStatus_canceled_map_and_unknown_noop :
    statusMap "canceled" = some CallStatus.failed ∧
    (∀ st callSid callStatus, handleVoiceStatus st none callSid callStatus
        = ⟨st, [], [], 200⟩) ∧
    (∀ st cid callSid, handleVoiceStatus st (some cid) callSid none
        = ⟨st, [], [], 200⟩) ∧
    (∀ st cid callSid cs, statusMap cs = none →
        handleVoiceStatus st (some cid) callSid (some cs) = ⟨st, [], [], 200⟩) := by
  refine ⟨by decide, ?_, ?_, ?_⟩
  · intro st callSid callStatus
    cases callStatus <;> rfl
  · intro st cid callSid
    rfl
  · intro st cid callSid cs h
    simp [handleVoiceStatus, h]

/-- Claim C10 witness: a status webhook with the unmapped provider status
`queued` changes nothing and answers 200. -/
theorem handleVoiceStatus_canceled_map_and_unknown_noop_witness :
    handleVoiceStatus VoiceState.empty (some "c10") none (some "queued")
      = ⟨VoiceState.empty, [], [], 200⟩ :=
  handleVoiceStatus_canceled_map_and_unknown_noop.2.2.2
    VoiceState.empty "c10" none "queued" (by decide)

theorem finalize_of_finalized (st : CallManagerState) (cid : String)
    (r : CallRecord) (hr : st.records cid = some r)
    (hf : r.finalized = true) : finalize st cid = st := by
  simp [finalize, hr, hf]

/-- Claim C1: for a live (not yet finalized) call record, the completion
callback fires exactly once no matter how many termination triggers invoke
`finalize` for that call identifier — after any positive number of triggers
the fired count is exactly one, and every trigger after the first leaves the
state exactly where the first left it. -/
theorem finalize_fires_exactly_once (st : CallManagerState) (cid : String)
    (r : CallRecord) (hr : st.records cid = some r)
    (hnf : r.finalized = false) (h0 : r.completionsFired = 0) :
    (∀ n, 1 ≤ n → completionsFiredFor (finalizeN st cid n) cid = 1) ∧
    (∀ n, 1 ≤ n → finalizeN st cid n = finalize st cid) := by
  have h1 : finalize st cid
      = { records := st.records.set cid
            { r with finalized := true, completionsFired := 1 } } := by
    simp [finalize, hr, hnf, h0]
  have hr' : (finalize st cid).records cid
      = some { r with finalized := true, completionsFired := 1 } := by
    rw [h1]
    simp [StrMap.set]
  have hfix : finalize (finalize st cid) cid = finalize st cid :=
    finalize_of_finalized _ _ _ hr' rfl
  have hN : ∀ n, 1 ≤ n → finalizeN st cid n = finalize st cid := by
    intro n hn
    induction n with
    | zero => omega
    | succ k ih =>
      rcases Nat.eq_zero_or_pos k with hk | hk
      · subst hk
        rfl
      · rw [finalizeN, ih hk, hfix]
  refine ⟨?_, hN⟩
  intro n hn
  rw [hN n hn]
  simp [completionsFiredFor, hr']

/-- Claim C1 witness: three termination triggers on a single live record
fire the completion callback exactly once. -/
theorem finalize_fires_exactly_once_witness :
    completionsFiredFor
      (finalizeN
        { records := StrMap.set StrMap.empty "c1"
            { status := CallStatus.inProgress, finalized := false,
              completionsFired := 0 } }
        "c1" 3) "c1" = 1 :=
  (finalize_fires_exactly_once
    { records := StrMap.set StrMap.empty "c1"
        { status := CallStatus.inProgress, finalized := false,
          completionsFired := 0 } }
    "c1"
    { status := CallStatus.inProgress, finalized := false,
      completionsFired := 0 }
    (by decide) rfl rfl).1 3 (by decide)

/-- Claim C2: `updateStatus` on a record already in a terminal status is a
no-op — the store is left exactly unchanged, so a record never moves from a
terminal status to any other status and late or duplicate terminal
deliveries are silently ignored. -/
theorem updateStatus_terminal_is_noop (st : CallManagerState) (cid : String)
    (r : CallRecord) (s : CallStatus) (hr : st.records cid = some r)
    (hterm : r.status.isTerminal = true) :
    updateStatus st cid s = st := by
  simp [updateStatus, hr, hterm]

/-- Claim C2 witness: a late `ringing` delivery on a completed record is
ignored. -/
theorem updateStatus_terminal_is_noop_witness :
    updateStatus
      { records := StrMap.set StrMap.empty "c2"
          { status := CallStatus.completed, finalized := true,
            completionsFired := 1 } }
      "c2" CallStatus.ringing
      = { records := StrMap.set StrMap.empty "c2"
            { status := CallStatus.completed, finalized := true,
              completionsFired := 1 } } :=
  updateStatus_terminal_is_noop _ "c2"
    { status := CallStatus.completed, finalized := true, completionsFired := 1 }
    CallStatus.ringing (by decide) rfl

/-- Claim C3: a caller-speech-started signal arriving while an output
segment is still logically unplayed emits exactly one discard instruction to
the telephony side and exactly one matching truncate directive to the model
session — never zero, never two — and caller audio relay still works on the
resulting bridge state. -/
theorem bargeIn_discard_truncate_once (b : BridgeState)
    (hun : b.unflushedOutput = true) (hcl : b.closed = false) :
    (onSpeechStarted b).2.count BridgeEmit.clearTelephony = 1 ∧
    (onSpeechStarted b).2.count BridgeEmit.truncateModel = 1 ∧
    ∀ p, relayCallerFrame (onSpeechStarted b).1 p
        = [BridgeEmit.inputAudioAppend p] := by
  have h2 : (onSpeechStarted b).2
      = [BridgeEmit.clearTelephony, BridgeEmit.truncateModel] := by
    simp [onSpeechStarted, hun]
  have h1 : (onSpeechStarted b).1
      = { unflushedOutput := false, closed := b.closed } := by
    simp [onSpeechStarted, hun]
  refine ⟨?_, ?_, ?_⟩
  · rw [h2]
    decide
  · rw [h2]
    decide
  · intro p
    rw [h1]
    simp [relayCallerFrame, hcl]

/-- Claim C3 witness: an interruption on a bridge with an unflushed output
segment. -/
theorem bargeIn_discard_truncate_once_witness :
    (onSpeechStarted { unflushedOutput := true, closed := false }).2.count
        BridgeEmit.clearTelephony = 1 ∧
    (onSpeechStarted { unflushedOutput := true, closed := false }).2.count
        BridgeEmit.truncateModel = 1 ∧
    relayCallerFrame
        (onSpeechStarted { unflushedOutput := true, closed := false }).1 "frame0"
      = [BridgeEmit.inputAudioAppend "frame0"] :=
  let h := bargeIn_discard_truncate_once
    { unflushedOutput := true, closed := false } rfl rfl
  ⟨h.1, h.2.1, h.2.2 "frame0"⟩
